import Mathlib

/-!
Verification of the function-invocation core of the semantic-kernel Python
orchestration layer: the Kernel pipeline (kernel.py), the SKFunction
invocation and streaming paths (orchestration/sk_function.py), the chat
prompt template (semantic_functions/chat_prompt_template.py together with
models/chat/chat_message.py) and the AI-service registry held on the Kernel.

The definitions below are shallow embeddings of those source files.  The
files orchestration/sk_context.py, orchestration/context_variables.py and
the events module are not present in the tree; the corresponding
definitions are modelled from the specification and are marked as such.
-/

namespace SKModel

/-- Modelled from the spec: ContextVariables (spec sections 3 and 4.1) — the
source file orchestration/context_variables.py is absent from the tree.  An
ordered mapping of named string variables plus the distinguished "input"
slot.  The named variables are kept in insertion order in the field named,
the input slot is kept apart (it is the "input" key of the underlying
mapping and is always present). -/
structure ContextVariables where
  input : String
  named : List (String × String)
  deriving Repr, DecidableEq

/-- ContextVariables(content) — fresh variables whose input slot holds the
given content. -/
def ContextVariables.ofInput (s : String) : ContextVariables :=
  { input := s, named := [] }

/-- ContextVariables() — fresh variables, the input slot defaults to the
empty string. -/
def ContextVariables.empty : ContextVariables :=
  ContextVariables.ofInput ""

/-- update with a single positional value sets the distinguished input slot
(spec section 4.1). -/
def ContextVariables.update (cv : ContextVariables) (v : String) : ContextVariables :=
  { cv with input := v }

/-- Modelled from the spec: merge_or_overwrite (spec sections 3 and 8).
With overwrite = false the receiver keeps all of its keys and only absent
keys of the other set are added; with overwrite = true the other set takes
precedence.  Both sides always carry the "input" key, so the input slot
follows the same rule. -/
def ContextVariables.mergeOrOverwrite (cv newVars : ContextVariables) (overwrite : Bool) :
    ContextVariables :=
  if overwrite then
    { input := newVars.input,
      named := cv.named.map (fun p =>
          match newVars.named.lookup p.1 with
          | some v => (p.1, v)
          | none => p)
        ++ newVars.named.filter (fun p => (cv.named.lookup p.1).isNone) }
  else
    { input := cv.input,
      named := cv.named ++ newVars.named.filter (fun p => (cv.named.lookup p.1).isNone) }

/-- Modelled from the spec: SKContext (spec sections 3 and 4.1) — the source
file orchestration/sk_context.py is absent from the tree.  Variables plus
the error flag with its message, plus the untyped object bag (modelled as
string-keyed entries; only its keys and presence matter to the claims).
Memory and the skill collection are not modelled: no claim mentions them.
The field cvars embeds the source attribute named variables. -/
structure SKContext where
  cvars : ContextVariables
  errorOccurred : Bool := false
  lastErrorDescription : String := ""
  objects : List (String × String) := []
  deriving Repr, DecidableEq

/-- Modelled from the spec: fail(message, exception) sets the error flag and
stores the message (spec section 4.1); the flag is never auto-cleared. -/
def SKContext.fail (ctx : SKContext) (msg : String) : SKContext :=
  { ctx with errorOccurred := true, lastErrorDescription := msg }

/-! ## AI service registry (kernel.py lines 466-618)

One category holds the registered service ids (Python dict keys, hence in
insertion order) and the default id of the category.  The factory values
are irrelevant to the registry invariant and are not modelled. -/

structure ServiceCat where
  keys : List String
  default : Option String
  deriving Repr, DecidableEq

def ServiceCat.emptyCat : ServiceCat := { keys := [], default := none }

/-- add_*_service (kernel.py 466-520): reject an empty id; reject a
duplicate id unless overwrite is set; insert (a Python dict keeps the
original position of an existing key); make this id the default when the
category has none yet. -/
def ServiceCat.add (c : ServiceCat) (id : String) (overwrite : Bool) :
    Except String ServiceCat :=
  if id = "" then
    .error "service_id must be a non-empty string"
  else if overwrite = false ∧ id ∈ c.keys then
    .error "service with this service_id already exists"
  else
    .ok { keys := if id ∈ c.keys then c.keys else c.keys ++ [id],
          default := match c.default with
            | none => some id
            | some d => some d }

/-- set_default_*_service (kernel.py 522-541): the id must already be
registered. -/
def ServiceCat.setDefault (c : ServiceCat) (id : String) : Except String ServiceCat :=
  if id ∈ c.keys then
    .ok { c with default := some id }
  else
    .error "AI service with this service_id does not exist"

/-- remove_*_service (kernel.py 567-592): the id must exist; after deletion,
if it was the default, the default becomes the first remaining key
(next(iter(dict), None)) or none. -/
def ServiceCat.remove (c : ServiceCat) (id : String) : Except String ServiceCat :=
  if id ∈ c.keys then
    let keys2 := c.keys.erase id
    .ok { keys := keys2,
          default := if c.default = some id then keys2.head? else c.default }
  else
    .error "AI service with this service_id does not exist"

/-- The three service categories held on a Kernel (kernel.py 78-84). -/
structure KernelServices where
  textCompletion : ServiceCat
  chat : ServiceCat
  embedding : ServiceCat
  deriving Repr, DecidableEq

/-- One registry operation of the Kernel surface.  addChat carries whether
the supplied service instance also satisfies TextCompletionClientBase, in
which case add_chat_service re-registers it as a text-completion service
(kernel.py 498-499, with the default overwrite = true of
add_text_completion_service). -/
inductive ServiceOp where
  | addText (id : String) (overwrite : Bool)
  | addChat (id : String) (overwrite : Bool) (isTextInstance : Bool)
  | addEmbedding (id : String) (overwrite : Bool)
  | setDefaultText (id : String)
  | setDefaultChat (id : String)
  | setDefaultEmbedding (id : String)
  | removeText (id : String)
  | removeChat (id : String)
  | removeEmbedding (id : String)
  | clearText
  | clearChat
  | clearEmbedding
  | clearAll
  deriving Repr, DecidableEq

/-- Dispatch of one registry operation against the Kernel state, mirroring
kernel.py 466-618.  A raised ValueError is an error result and leaves the
state with the caller unchanged. -/
def KernelServices.applyOp (s : KernelServices) (op : ServiceOp) :
    Except String KernelServices :=
  match op with
  | .addText id ow =>
      (s.textCompletion.add id ow).map (fun c => { s with textCompletion := c })
  | .addChat id ow isText => do
      let c ← s.chat.add id ow
      let s2 := { s with chat := c }
      if isText then
        let t ← s2.textCompletion.add id true
        pure { s2 with textCompletion := t }
      else
        pure s2
  | .addEmbedding id ow =>
      (s.embedding.add id ow).map (fun c => { s with embedding := c })
  | .setDefaultText id =>
      (s.textCompletion.setDefault id).map (fun c => { s with textCompletion := c })
  | .setDefaultChat id =>
      (s.chat.setDefault id).map (fun c => { s with chat := c })
  | .setDefaultEmbedding id =>
      (s.embedding.setDefault id).map (fun c => { s with embedding := c })
  | .removeText id =>
      (s.textCompletion.remove id).map (fun c => { s with textCompletion := c })
  | .removeChat id =>
      (s.chat.remove id).map (fun c => { s with chat := c })
  | .removeEmbedding id =>
      (s.embedding.remove id).map (fun c => { s with embedding := c })
  | .clearText => .ok { s with textCompletion := ServiceCat.emptyCat }
  | .clearChat => .ok { s with chat := ServiceCat.emptyCat }
  | .clearEmbedding => .ok { s with embedding := ServiceCat.emptyCat }
  | .clearAll => .ok { textCompletion := ServiceCat.emptyCat,
                       chat := ServiceCat.emptyCat,
                       embedding := ServiceCat.emptyCat }

/-- The per-category invariant: the default id is none or a registered
key. -/
def ServiceCat.defaultOk (c : ServiceCat) : Prop :=
  ∀ d, c.default = some d → d ∈ c.keys

instance (c : ServiceCat) : Decidable c.defaultOk :=
  match hc : c.default with
  | none => isTrue (fun d hd => by rw [hc] at hd; cases hd)
  | some d =>
      if hmem : d ∈ c.keys then
        isTrue (fun e he => by
          rw [hc] at he
          cases he
          exact hmem)
      else
        isFalse (fun hall => hmem (hall d hc))

/-- The Kernel-state invariant over all three categories. -/
def KernelServices.invariantOk (s : KernelServices) : Prop :=
  s.textCompletion.defaultOk ∧ s.chat.defaultOk ∧ s.embedding.defaultOk

instance (s : KernelServices) : Decidable s.invariantOk :=
  inferInstanceAs (Decidable (_ ∧ _ ∧ _))

theorem ServiceCat.add_preserves_defaultOk {c : ServiceCat} {id : String} {ow : Bool}
    {c2 : ServiceCat} (hinv : c.defaultOk) (h : c.add id ow = .ok c2) :
    c2.defaultOk := by
  unfold ServiceCat.add at h
  split at h
  · exact absurd h (by simp)
  · split at h
    · exact absurd h (by simp)
    · cases h
      intro d hd
      simp only at hd
      by_cases hmem : id ∈ c.keys
      · simp only [if_pos hmem]
        cases hdef : c.default with
        | none => rw [hdef] at hd; cases hd; exact hmem
        | some e => rw [hdef] at hd; cases hd; exact hinv d hdef
      · simp only [if_neg hmem, List.mem_append]
        cases hdef : c.default with
        | none => rw [hdef] at hd; cases hd; exact Or.inr (List.mem_singleton_self _)
        | some e => rw [hdef] at hd; cases hd; exact Or.inl (hinv d hdef)

theorem ServiceCat.setDefault_preserves_defaultOk {c : ServiceCat} {id : String}
    {c2 : ServiceCat} (h : c.setDefault id = .ok c2) :
    c2.defaultOk := by
  unfold ServiceCat.setDefault at h
  split at h
  next hmem =>
    cases h
    intro d hd
    simp only at hd
    cases hd
    exact hmem
  next => exact absurd h (by simp)

theorem ServiceCat.remove_preserves_defaultOk {c : ServiceCat} {id : String}
    {c2 : ServiceCat} (hinv : c.defaultOk) (h : c.remove id = .ok c2) :
    c2.defaultOk := by
  unfold ServiceCat.remove at h
  split at h
  next hmem =>
    cases h
    intro d hd
    simp only at hd
    by_cases hdef : c.default = some id
    · rw [if_pos hdef] at hd
      exact List.mem_of_mem_head? hd
    · rw [if_neg hdef] at hd
      have hne : d ≠ id := fun hcontra => hdef (by rw [hd, hcontra])
      exact (List.mem_erase_of_ne hne).mpr (hinv d hd)
  next => exact absurd h (by simp)

theorem ServiceCat.emptyCat_defaultOk : ServiceCat.emptyCat.defaultOk :=
  fun d hd => by cases hd

/-- Inversion helper: a successful Except.map came from a successful
operation. -/
theorem exceptMap_ok_inv {α β : Type} {f : α → β} {r : Except String α} {b : β}
    (h : r.map f = .ok b) : ∃ a, r = .ok a ∧ b = f a := by
  cases r with
  | error e => simp [Except.map] at h
  | ok a =>
    refine ⟨a, rfl, ?_⟩
    simp [Except.map] at h
    exact h.symm

/-- C10: for each AI service category the default service id is always
either none or a key of the registered-services map, and every add, remove,
set-default and clear operation of the Kernel preserves this; in particular
removing the current default reassigns it to a remaining registered id or
to none when none remain. -/
theorem service_registry_default_invariant (s : KernelServices) (op : ServiceOp)
    (s2 : KernelServices) (hinv : s.invariantOk)
    (h : s.applyOp op = .ok s2) : s2.invariantOk := by
  obtain ⟨htext, hchat, hembed⟩ := hinv
  cases op with
  | addText id ow =>
    simp only [KernelServices.applyOp] at h
    obtain ⟨c, hc, rfl⟩ := exceptMap_ok_inv h
    exact ⟨ServiceCat.add_preserves_defaultOk htext hc, hchat, hembed⟩
  | addChat id ow isText =>
    simp only [KernelServices.applyOp] at h
    cases hc : s.chat.add id ow with
    | error e => rw [hc] at h; exact absurd h (by simp [Bind.bind, Except.bind])
    | ok c =>
      rw [hc] at h
      simp only [Bind.bind, Except.bind] at h
      have hcOk := ServiceCat.add_preserves_defaultOk hchat hc
      cases isText with
      | false =>
        simp only [Bool.false_eq_true, if_false, pure, Except.pure, Except.ok.injEq] at h
        cases h
        exact ⟨htext, hcOk, hembed⟩
      | true =>
        simp only [if_true] at h
        cases ht : ({ s with chat := c } : KernelServices).textCompletion.add id true with
        | error e =>
          rw [ht] at h
          exact absurd h (by simp [Bind.bind, Except.bind])
        | ok t =>
          rw [ht] at h
          simp only [Bind.bind, Except.bind, pure, Except.pure, Except.ok.injEq] at h
          cases h
          exact ⟨ServiceCat.add_preserves_defaultOk htext ht, hcOk, hembed⟩
  | addEmbedding id ow =>
    simp only [KernelServices.applyOp] at h
    obtain ⟨c, hc, rfl⟩ := exceptMap_ok_inv h
    exact ⟨htext, hchat, ServiceCat.add_preserves_defaultOk hembed hc⟩
  | setDefaultText id =>
    simp only [KernelServices.applyOp] at h
    obtain ⟨c, hc, rfl⟩ := exceptMap_ok_inv h
    exact ⟨ServiceCat.setDefault_preserves_defaultOk hc, hchat, hembed⟩
  | setDefaultChat id =>
    simp only [KernelServices.applyOp] at h
    obtain ⟨c, hc, rfl⟩ := exceptMap_ok_inv h
    exact ⟨htext, ServiceCat.setDefault_preserves_defaultOk hc, hembed⟩
  | setDefaultEmbedding id =>
    simp only [KernelServices.applyOp] at h
    obtain ⟨c, hc, rfl⟩ := exceptMap_ok_inv h
    exact ⟨htext, hchat, ServiceCat.setDefault_preserves_defaultOk hc⟩
  | removeText id =>
    simp only [KernelServices.applyOp] at h
    obtain ⟨c, hc, rfl⟩ := exceptMap_ok_inv h
    exact ⟨ServiceCat.remove_preserves_defaultOk htext hc, hchat, hembed⟩
  | removeChat id =>
    simp only [KernelServices.applyOp] at h
    obtain ⟨c, hc, rfl⟩ := exceptMap_ok_inv h
    exact ⟨htext, ServiceCat.remove_preserves_defaultOk hchat hc, hembed⟩
  | removeEmbedding id =>
    simp only [KernelServices.applyOp] at h
    obtain ⟨c, hc, rfl⟩ := exceptMap_ok_inv h
    exact ⟨htext, hchat, ServiceCat.remove_preserves_defaultOk hembed hc⟩
  | clearText =>
    simp only [KernelServices.applyOp, Except.ok.injEq] at h
    cases h
    exact ⟨ServiceCat.emptyCat_defaultOk, hchat, hembed⟩
  | clearChat =>
    simp only [KernelServices.applyOp, Except.ok.injEq] at h
    cases h
    exact ⟨htext, ServiceCat.emptyCat_defaultOk, hembed⟩
  | clearEmbedding =>
    simp only [KernelServices.applyOp, Except.ok.injEq] at h
    cases h
    exact ⟨htext, hchat, ServiceCat.emptyCat_defaultOk⟩
  | clearAll =>
    simp only [KernelServices.applyOp, Except.ok.injEq] at h
    cases h
    exact ⟨ServiceCat.emptyCat_defaultOk, ServiceCat.emptyCat_defaultOk,
           ServiceCat.emptyCat_defaultOk⟩

/-- Witness for C10: a concrete remove of the current default reassigns the
default to the remaining id and the invariant holds afterwards. -/
theorem service_registry_default_invariant_witness :
    ({ textCompletion := { keys := ["a", "b"], default := some "a" },
       chat := ServiceCat.emptyCat,
       embedding := ServiceCat.emptyCat } : KernelServices).invariantOk ∧
    ({ textCompletion := { keys := ["a", "b"], default := some "a" },
       chat := ServiceCat.emptyCat,
       embedding := ServiceCat.emptyCat } : KernelServices).applyOp (.removeText "a")
      = .ok { textCompletion := { keys := ["b"], default := some "b" },
              chat := ServiceCat.emptyCat,
              embedding := ServiceCat.emptyCat } ∧
    ({ textCompletion := { keys := ["b"], default := some "b" },
       chat := ServiceCat.emptyCat,
       embedding := ServiceCat.emptyCat } : KernelServices).invariantOk :=
  ⟨by decide, by rfl,
   service_registry_default_invariant
     { textCompletion := { keys := ["a", "b"], default := some "a" },
       chat := ServiceCat.emptyCat, embedding := ServiceCat.emptyCat }
     (.removeText "a")
     { textCompletion := { keys := ["b"], default := some "b" },
       chat := ServiceCat.emptyCat, embedding := ServiceCat.emptyCat }
     (by decide) (by rfl)⟩

/-! ## Kernel pipeline execution (kernel.py run_async, lines 218-329)

A pipeline function is embedded by the behavior of its invocation delegate:
given the current context it either produces an updated context or raises
an exception message.  sk_function.py invoke_async (lines 383-417) catches
every exception from the delegate, records it on the context via fail and
returns the context, so invoke never raises for data-level faults. -/

def FuncBody : Type := SKContext → Except String SKContext

/-- SKFunction.invoke_async as observed by the Kernel loop: dispatch the
delegate; on a raised exception, context.fail and return the context
(sk_function.py 410-417). -/
def invokeAsync (f : FuncBody) (ctx : SKContext) : SKContext :=
  match f ctx with
  | .ok c => c
  | .error m => ctx.fail m

/-- An element of the argument list of run: either a genuine function or
any other Python value, which the isinstance assert rejects
(kernel.py 258-260). -/
inductive PipelineElem where
  | fn (body : FuncBody)
  | notAFunction

/-- Flags of the function-invoking (pre-invocation) event arguments
(events module, modelled from spec section 6). -/
structure PreFlags where
  isCancelRequested : Bool
  isSkipRequested : Bool

/-- Flags of the function-invoked (post-invocation) event arguments
(events module, modelled from spec section 6). -/
structure PostFlags where
  isCancelRequested : Bool
  isRepeatRequested : Bool

/-- Modelled from the spec: the registered event handlers (spec section 6;
the events module is absent from the tree).  on_function_invoking and
on_function_invoked (kernel.py 373-387) return None when no handlers are
registered, otherwise the args object after every handler ran; handlers may
keep state of their own, abstracted by the type S. -/
structure EventHandlers (S : Type) where
  pre : S → SKContext → Option PreFlags × S
  post : S → SKContext → Option PostFlags × S

/-- The isinstance-guarded flag reads of kernel.py 273-316: a None event
args object never cancels, skips or repeats. -/
def preCancel : Option PreFlags → Bool
  | none => false
  | some f => f.isCancelRequested

def preSkip : Option PreFlags → Bool
  | none => false
  | some f => f.isSkipRequested

def postCancel : Option PostFlags → Bool
  | none => false
  | some f => f.isCancelRequested

def postRepeat : Option PostFlags → Bool
  | none => false
  | some f => f.isRepeatRequested

/-- Outcome of the inner while-True loop of run_async for one pipeline
step: an early return of the whole run, a break advancing to the next
function, a raised AssertionError from the isinstance check, or fuel
exhaustion (the source loop is unbounded, see spec section 4.3). -/
inductive LoopOutcome (S : Type) where
  | ret (ctx : SKContext) (trace : List Nat)
  | next (s : S) (ctx : SKContext) (trace : List Nat)
  | typeErr
  | outOfFuel

/-- Outcome of run_async: the returned context together with the trace of
invocations (the pipeline_step value at each call of invoke_async), a
raised AssertionError, or fuel exhaustion. -/
inductive RunOutcome (S : Type) where
  | ok (ctx : SKContext) (trace : List Nat)
  | typeErr
  | outOfFuel

/-- The while-True loop body of run_async (kernel.py 257-325) for the
current function: assert the element is a function; return the context if
its error flag is already set; fire the pre-invocation event (cancel
returns, skip breaks); invoke; return on a failed context; fire the
post-invocation event (cancel returns, repeat loops without advancing the
step counter, otherwise break).  The trace records the pipeline_step value
of every invocation. -/
def stepLoop {S : Type} (ev : EventHandlers S) (elem : PipelineElem) (step : Nat) :
    Nat → S → SKContext → List Nat → LoopOutcome S
  | 0, _, _, _ => .outOfFuel
  | fuel + 1, s, ctx, tr =>
    match elem with
    | .notAFunction => .typeErr
    | .fn body =>
      if ctx.errorOccurred then .ret ctx tr
      else
        let pres := ev.pre s ctx
        if preCancel pres.1 then .ret ctx tr
        else if preSkip pres.1 then .next pres.2 ctx tr
        else
          let ctx2 := invokeAsync body ctx
          let tr2 := tr ++ [step]
          if ctx2.errorOccurred then .ret ctx2 tr2
          else
            let posts := ev.post pres.2 ctx2
            if postCancel posts.1 then .ret ctx2 tr2
            else if postRepeat posts.1 then stepLoop ev elem step fuel posts.2 ctx2 tr2
            else .next posts.2 ctx2 tr2

/-- The for-loop of run_async over the supplied functions (kernel.py
255-329), advancing pipeline_step after each break of the inner loop. -/
def runPipeline {S : Type} (ev : EventHandlers S) (fuel : Nat) :
    List PipelineElem → S → SKContext → Nat → List Nat → RunOutcome S
  | [], _, ctx, _, tr => .ok ctx tr
  | elem :: rest, s, ctx, step, tr =>
    match stepLoop ev elem step fuel s ctx tr with
    | .ret ctx2 tr2 => .ok ctx2 tr2
    | .next s2 ctx2 tr2 => runPipeline ev fuel rest s2 ctx2 (step + 1) tr2
    | .typeErr => .typeErr
    | .outOfFuel => .outOfFuel

/-- Context seeding of run_async (kernel.py 226-253): a supplied context is
kept and merged with the extra inputs; otherwise a fresh context is built
from the input string and/or variables. -/
def seedContextRun (inputContext : Option SKContext) (inputVars : Option ContextVariables)
    (inputStr : Option String) : SKContext :=
  match inputContext with
  | some c0 =>
    let c1 := match inputVars with
      | some v => { c0 with cvars := v.mergeOrOverwrite c0.cvars false }
      | none => c0
    match inputStr with
    | some str => { c1 with cvars := (ContextVariables.ofInput str).mergeOrOverwrite c1.cvars false }
    | none => c1
  | none =>
    let vs := match inputStr, inputVars with
      | some str, none => ContextVariables.ofInput str
      | none, some v => v
      | some str, some v => (ContextVariables.ofInput str).mergeOrOverwrite v false
      | none, none => ContextVariables.empty
    { cvars := vs }

/-- Kernel.run_async (kernel.py 218-329): seed the context, then execute
the pipeline from step 0 with an empty invocation trace. -/
def runAsync {S : Type} (ev : EventHandlers S) (s0 : S) (fuel : Nat)
    (funcs : List PipelineElem) (inputContext : Option SKContext)
    (inputVars : Option ContextVariables) (inputStr : Option String) : RunOutcome S :=
  runPipeline ev fuel funcs s0 (seedContextRun inputContext inputVars inputStr) 0 []

/-- The Kernel with no registered handlers: both events return None
(kernel.py 373-387). -/
def noEvents : EventHandlers Unit :=
  { pre := fun s _ => (none, s), post := fun s _ => (none, s) }

/-- Shared halt lemma: with functions [A, B], an initial context without
the error flag, and a pre-invocation event that lets A run, when invoking A
leaves the error flag set the run returns the failed context with only the
step-0 invocation in the trace. -/
theorem runAsync_halts_on_failed_first {S : Type} (ev : EventHandlers S) (s0 : S)
    (A B : FuncBody) (ctx0 : SKContext)
    (fuel : Nat) (hf : 0 < fuel) (h0 : ctx0.errorOccurred = false)
    (hpre : preCancel (ev.pre s0 ctx0).1 = false)
    (hskip : preSkip (ev.pre s0 ctx0).1 = false)
    (hA : (invokeAsync A ctx0).errorOccurred = true) :
    runAsync ev s0 fuel [.fn A, .fn B] (some ctx0) none none
      = .ok (invokeAsync A ctx0) [0] := by
  obtain ⟨fuel2, rfl⟩ : ∃ k, fuel = k + 1 := ⟨fuel - 1, (Nat.succ_pred_eq_of_pos hf).symm⟩
  unfold runAsync seedContextRun runPipeline stepLoop
  simp only [h0, if_false, Bool.false_eq_true, hpre, hskip, hA, if_true,
    List.nil_append]

/-- C1: with functions [A, B] and any registered handlers whose
pre-invocation event lets A run, when invoking A leaves the error flag set
the Kernel returns that context immediately with only the step-0 invocation
in the trace — B is never invoked — and when A raised with message msg the
returned error description is exactly msg. -/
theorem run_stops_after_failed_invocation {S : Type} (ev : EventHandlers S) (s0 : S)
    (A B : FuncBody) (ctx0 : SKContext)
    (fuel : Nat) (hf : 0 < fuel) (h0 : ctx0.errorOccurred = false)
    (hpre : preCancel (ev.pre s0 ctx0).1 = false)
    (hskip : preSkip (ev.pre s0 ctx0).1 = false)
    (hA : (invokeAsync A ctx0).errorOccurred = true) :
    runAsync ev s0 fuel [.fn A, .fn B] (some ctx0) none none
      = .ok (invokeAsync A ctx0) [0]
    ∧ ∀ msg, A ctx0 = .error msg → (invokeAsync A ctx0).lastErrorDescription = msg := by
  constructor
  · exact runAsync_halts_on_failed_first ev s0 A B ctx0 fuel hf h0 hpre hskip hA
  · intro msg hmsg
    unfold invokeAsync
    rw [hmsg]
    rfl

/-- Witness for C1 at a function that raises the message boom, on the
handler-free kernel. -/
theorem run_stops_after_failed_invocation_witness :
    runAsync noEvents () 3 [.fn (fun _ => .error "boom"), .fn (fun c => .ok c)]
        (some { cvars := ContextVariables.empty }) none none
      = .ok (invokeAsync (fun _ => .error "boom") { cvars := ContextVariables.empty }) [0]
    ∧ ∀ msg, (fun (_ : SKContext) => (.error "boom" : Except String SKContext))
          { cvars := ContextVariables.empty } = .error msg →
        (invokeAsync (fun _ => .error "boom")
          { cvars := ContextVariables.empty }).lastErrorDescription = msg :=
  run_stops_after_failed_invocation noEvents () (fun _ => .error "boom") (fun c => .ok c)
    { cvars := ContextVariables.empty } 3 (by decide) (by decide) rfl rfl (by decide)

/-- For a genuine function element the inner loop never raises the
isinstance AssertionError. -/
theorem stepLoop_fn_ne_typeErr {S : Type} (ev : EventHandlers S) (body : FuncBody)
    (step : Nat) :
    ∀ fuel s ctx tr, stepLoop ev (.fn body) step fuel s ctx tr ≠ .typeErr := by
  intro fuel
  induction fuel with
  | zero => intro s ctx tr; unfold stepLoop; simp
  | succ n ih =>
    intro s ctx tr
    unfold stepLoop
    simp only
    split
    · simp
    · split
      · simp
      · split
        · simp
        · split
          · simp
          · split
            · simp
            · split
              · exact ih _ _ _
              · simp

/-- C2: within run, data-level faults never escape: a pipeline whose
elements are all genuine functions never raises the structural
AssertionError; a function that raises during invocation yields a returned
context whose error flag is set and whose description is the fault message;
and a non-Function element in the list raises immediately. -/
theorem run_surfaces_faults_in_context :
    (∀ (S : Type) (ev : EventHandlers S) (fuel : Nat) (funcs : List PipelineElem)
       (s : S) (ctx : SKContext) (step : Nat) (tr : List Nat),
       (∀ e ∈ funcs, ∃ body, e = .fn body) →
       runPipeline ev fuel funcs s ctx step tr ≠ .typeErr)
    ∧ (∀ (msg : String) (ctx0 : SKContext) (fuel : Nat) (B : FuncBody),
       0 < fuel → ctx0.errorOccurred = false →
       runAsync noEvents () fuel [.fn (fun _ => .error msg), .fn B] (some ctx0) none none
         = .ok (ctx0.fail msg) [0]
       ∧ (ctx0.fail msg).errorOccurred = true
       ∧ (ctx0.fail msg).lastErrorDescription = msg)
    ∧ (∀ (fuel : Nat) (s : Unit) (ctx : SKContext) (step : Nat) (tr : List Nat)
       (rest : List PipelineElem), 0 < fuel →
       runPipeline noEvents fuel (.notAFunction :: rest) s ctx step tr = .typeErr) := by
  refine ⟨?_, ?_, ?_⟩
  · intro S ev fuel funcs
    induction funcs with
    | nil => intro s ctx step tr _; unfold runPipeline; simp
    | cons e rest ih =>
      intro s ctx step tr hall
      obtain ⟨body, rfl⟩ := hall e (List.mem_cons_self e rest)
      unfold runPipeline
      cases hstep : stepLoop ev (.fn body) step fuel s ctx tr with
      | ret ctx2 tr2 => simp
      | next s2 ctx2 tr2 =>
        simp only
        exact ih s2 ctx2 (step + 1) tr2 (fun e he => hall e (List.mem_cons_of_mem _ he))
      | typeErr => exact absurd hstep (stepLoop_fn_ne_typeErr ev body step fuel s ctx tr)
      | outOfFuel => simp
  · intro msg ctx0 fuel B hf h0
    have hfail : invokeAsync (fun _ => .error msg) ctx0 = ctx0.fail msg := rfl
    refine ⟨?_, rfl, rfl⟩
    have := runAsync_halts_on_failed_first noEvents () (fun _ => .error msg) B ctx0 fuel
      hf h0 rfl rfl (by rw [hfail]; rfl)
    rw [hfail] at this
    exact this
  · intro fuel s ctx step tr rest hf
    obtain ⟨fuel2, rfl⟩ : ∃ k, fuel = k + 1 := ⟨fuel - 1, (Nat.succ_pred_eq_of_pos hf).symm⟩
    unfold runPipeline stepLoop
    simp

/-- Witness for C2 at concrete inputs: a one-function pipeline does not
raise, a raising function marks the returned context, and a stray
non-function raises. -/
theorem run_surfaces_faults_in_context_witness :
    (runPipeline noEvents 3 [.fn (fun c => .ok c)] () { cvars := ContextVariables.empty } 0 []
       ≠ .typeErr)
    ∧ (runAsync noEvents () 3 [.fn (fun _ => .error "bad"), .fn (fun c => .ok c)]
         (some { cvars := ContextVariables.empty }) none none
         = .ok (SKContext.fail { cvars := ContextVariables.empty } "bad") [0]
       ∧ (SKContext.fail { cvars := ContextVariables.empty } "bad").errorOccurred = true
       ∧ (SKContext.fail { cvars := ContextVariables.empty } "bad").lastErrorDescription = "bad")
    ∧ runPipeline noEvents 3 [.notAFunction] () { cvars := ContextVariables.empty } 0 []
        = .typeErr :=
  ⟨run_surfaces_faults_in_context.1 Unit noEvents 3 [.fn (fun c => .ok c)] ()
     { cvars := ContextVariables.empty } 0 []
     (fun e he => by
        rw [List.mem_singleton] at he
        exact ⟨fun c => .ok c, he⟩),
   run_surfaces_faults_in_context.2.1 "bad" { cvars := ContextVariables.empty } 3
     (fun c => .ok c) (by decide) (by decide),
   run_surfaces_faults_in_context.2.2 3 () { cvars := ContextVariables.empty } 0 [] []
     (by decide)⟩

/-- C6: a pre-invocation skip advances to the next function with the
context untouched (so in particular the input slot is unchanged) and
nothing appended to the invocation trace. -/
theorem run_skip_advances_without_invocation {S : Type} (ev : EventHandlers S)
    (body : FuncBody) (rest : List PipelineElem) (s s2 : S) (flags : PreFlags)
    (ctx : SKContext) (step fuel : Nat) (tr : List Nat) (hf : 0 < fuel)
    (h0 : ctx.errorOccurred = false)
    (hpre : ev.pre s ctx = (some flags, s2))
    (hcancel : flags.isCancelRequested = false)
    (hskip : flags.isSkipRequested = true) :
    runPipeline ev fuel (.fn body :: rest) s ctx step tr
      = runPipeline ev fuel rest s2 ctx (step + 1) tr := by
  obtain ⟨fuel2, rfl⟩ : ∃ k, fuel = k + 1 := ⟨fuel - 1, (Nat.succ_pred_eq_of_pos hf).symm⟩
  conv_lhs => unfold runPipeline stepLoop
  simp [h0, hpre, preCancel, hcancel, preSkip, hskip]

/-- Handlers that always request a skip on the pre-invocation event. -/
def alwaysSkipEvents : EventHandlers Unit :=
  { pre := fun s _ => (some { isCancelRequested := false, isSkipRequested := true }, s),
    post := fun s _ => (none, s) }

/-- Witness for C6: the skipped function is dropped and the rest of the
pipeline continues on the identical context. -/
theorem run_skip_advances_without_invocation_witness :
    runPipeline alwaysSkipEvents 3 [.fn (fun _ => .error "boom")] ()
        { cvars := ContextVariables.empty } 0 []
      = runPipeline alwaysSkipEvents 3 [] () { cvars := ContextVariables.empty } 1 [] :=
  run_skip_advances_without_invocation alwaysSkipEvents (fun _ => .error "boom") [] () ()
    { isCancelRequested := false, isSkipRequested := true }
    { cvars := ContextVariables.empty } 0 3 [] (by decide) (by decide) rfl rfl rfl

/-- Handlers whose post-invocation event requests a repeat on the first n
invocations and then falls through; the state counts the post events
fired (kernel.py applies no bound of its own on repeats). -/
def repeatNEvents (n : Nat) : EventHandlers Nat :=
  { pre := fun s _ => (none, s),
    post := fun s _ => (some { isCancelRequested := false,
                               isRepeatRequested := decide (s < n) }, s + 1) }

theorem repeatNEvents_pre (n s : Nat) (ctx : SKContext) :
    (repeatNEvents n).pre s ctx = (none, s) := rfl

theorem repeatNEvents_post (n s : Nat) (ctx : SKContext) :
    (repeatNEvents n).post s ctx
      = (some { isCancelRequested := false, isRepeatRequested := decide (s < n) }, s + 1) :=
  rfl

theorem repeatN_loop (n : Nat) (body : FuncBody)
    (hbody : ∀ c, c.errorOccurred = false → (invokeAsync body c).errorOccurred = false) :
    ∀ (m s0 : Nat), s0 + m = n →
    ∀ (fuel : Nat) (ctx : SKContext) (tr : List Nat), m < fuel →
    ctx.errorOccurred = false →
    stepLoop (repeatNEvents n) (.fn body) 0 fuel s0 ctx tr
      = .next (n + 1) ((invokeAsync body)^[m + 1] ctx) (tr ++ List.replicate (m + 1) 0) := by
  intro m
  induction m with
  | zero =>
    intro s0 hs0 fuel ctx tr hfuel h0
    obtain ⟨fuel2, rfl⟩ : ∃ k, fuel = k + 1 := ⟨fuel - 1, (Nat.succ_pred_eq_of_pos hfuel).symm⟩
    have hs : s0 = n := by omega
    subst hs
    unfold stepLoop
    simp only [h0, Bool.false_eq_true, if_false, repeatNEvents_pre, repeatNEvents_post,
      preCancel, preSkip, hbody ctx h0, postCancel, postRepeat]
    simp
  | succ k ih =>
    intro s0 hs0 fuel ctx tr hfuel h0
    obtain ⟨fuel2, rfl⟩ : ∃ j, fuel = j + 1 := ⟨fuel - 1, (Nat.succ_pred_eq_of_pos
      (Nat.lt_of_le_of_lt (Nat.zero_le _) hfuel)).symm⟩
    have hlt : s0 < n := by omega
    unfold stepLoop
    simp only [h0, Bool.false_eq_true, if_false, repeatNEvents_pre, repeatNEvents_post,
      preCancel, preSkip, hbody ctx h0, postCancel, postRepeat, decide_eq_true_eq, hlt, if_true]
    rw [ih (s0 + 1) (by omega) fuel2 (invokeAsync body ctx) (tr ++ [0]) (by omega)
      (hbody ctx h0)]
    rw [Function.iterate_succ_apply, List.append_assoc]
    rfl

/-- C5: with post-invocation handlers that request a repeat on the first n
invocations and then fall through, a single-function pipeline invokes the
function exactly n + 1 times, every invocation at the unchanged
pipeline_step value 0; n is arbitrary, the kernel imposes no bound of its
own on repeats. -/
theorem run_repeat_invokes_n_plus_one_times (n : Nat) (body : FuncBody)
    (ctx0 : SKContext) (fuel : Nat) (hfuel : n < fuel)
    (h0 : ctx0.errorOccurred = false)
    (hbody : ∀ c, c.errorOccurred = false → (invokeAsync body c).errorOccurred = false) :
    runAsync (repeatNEvents n) 0 fuel [.fn body] (some ctx0) none none
      = .ok ((invokeAsync body)^[n + 1] ctx0) (List.replicate (n + 1) 0) := by
  unfold runAsync seedContextRun runPipeline
  rw [repeatN_loop n body hbody n 0 (Nat.zero_add n) fuel ctx0 [] hfuel h0]
  unfold runPipeline
  simp

/-- Witness for C5 with n = 2: the function runs exactly three times at
step 0. -/
theorem run_repeat_invokes_n_plus_one_times_witness :
    runAsync (repeatNEvents 2) 0 5 [.fn (fun c => .ok c)]
        (some { cvars := ContextVariables.empty }) none none
      = .ok ((invokeAsync (fun c => .ok c))^[3] { cvars := ContextVariables.empty })
          (List.replicate 3 0) :=
  run_repeat_invokes_n_plus_one_times 2 (fun c => .ok c)
    { cvars := ContextVariables.empty } 5 (by decide) (by decide)
    (fun c h => h)

/-! ## Semantic (non-chat) function invocation and streaming
(orchestration/sk_function.py from_semantic_config, lines 112-220 and
459-520)

The AI client and the template renderer are external collaborators; their
behavior is embedded as data: the render outcome for a context, the
non-streaming completion for a prompt, and the stream of chunks for a
prompt followed by an optional fault raised mid-stream. -/

/-- complete_stream_async behavior: the chunks arriving in order, then an
optional fault raised by the client after the last chunk. -/
structure ClientStream where
  chunks : List String
  fault : Option String

/-- A semantic non-chat function as built by from_semantic_config: the
prompt template render against a context (which may raise), the bound
client completion and streaming behaviors, and whether a client is bound
at all (the _ai_service attribute). -/
structure SemanticConfig where
  render : SKContext → Except String String
  complete : String → Except String String
  completeStream : String → ClientStream
  clientBound : Bool

/-- _local_func, non-chat branch (sk_function.py 124-137): a missing client
raises before the try block; render and completion faults are caught,
recorded with context.fail and the context is returned normally; on success
the completion is written into the input slot.  The error result is an
exception escaping the delegate. -/
def localFunc (cfg : SemanticConfig) (ctx : SKContext) : Except String SKContext :=
  if cfg.clientBound = false then
    .error "AI LLM service cannot be None"
  else
    match cfg.render ctx with
    | .error e => .ok (ctx.fail e)
    | .ok prompt =>
      match cfg.complete prompt with
      | .error e => .ok (ctx.fail e)
      | .ok completion => .ok { ctx with cvars := ctx.cvars.update completion }

/-- Result of fully consuming a stream generator: the chunks yielded in
order, the context afterwards, and the exception escaping the generator if
one was raised. -/
structure StreamOut where
  chunks : List String
  ctx : SKContext
  exc : Option String
  deriving Repr, DecidableEq

/-- _local_stream_func, non-chat branch (sk_function.py 168-208): a missing
client raises before the try block and the exception escapes the
generator; a render fault yields no chunks, is caught and recorded with
fail; a client fault mid-stream leaves the already-yielded chunks with the
consumer, is caught and recorded with fail — the generator then simply
ends, the fault is not re-raised; on success the concatenation of all
chunks is written into the input slot. -/
def localStreamFunc (cfg : SemanticConfig) (ctx : SKContext) : StreamOut :=
  if cfg.clientBound = false then
    { chunks := [], ctx := ctx, exc := some "AI LLM service cannot be None" }
  else
    match cfg.render ctx with
    | .error e => { chunks := [], ctx := ctx.fail e, exc := none }
    | .ok prompt =>
      let cs := cfg.completeStream prompt
      match cs.fault with
      | some e => { chunks := cs.chunks, ctx := ctx.fail e, exc := none }
      | none =>
        { chunks := cs.chunks,
          ctx := { ctx with cvars := ctx.cvars.update (String.join cs.chunks) },
          exc := none }

/-- SKFunction.invoke_stream_async (sk_function.py 459-497): iterate the
delegate stream, re-yielding; an exception escaping the delegate is
caught, the context is failed with it and a KernelException with the fixed
invocation-failure message is raised to the consumer. -/
def invokeStreamAsync (cfg : SemanticConfig) (ctx : SKContext) : StreamOut :=
  let out := localStreamFunc cfg ctx
  match out.exc with
  | none => out
  | some e =>
    { chunks := out.chunks, ctx := out.ctx.fail e,
      exc := some "Error occurred while invoking stream function" }

/-- C4 counterexample: a client fault raised mid-stream of a bound semantic
function is swallowed by the delegate — the context is failed with the
fault but no wrapped invocation-failure exception reaches the stream
consumer, contradicting the claim that every such fault surfaces a wrapped
exception; the two chunks already yielded stay with the consumer. -/
theorem stream_fault_swallowed_counterexample :
    invokeStreamAsync
        { render := fun _ => .ok "p",
          complete := fun _ => .error "unused",
          completeStream := fun _ => { chunks := ["a", "b"], fault := some "boom" },
          clientBound := true }
        { cvars := ContextVariables.empty }
      = { chunks := ["a", "b"],
          ctx := SKContext.fail { cvars := ContextVariables.empty } "boom",
          exc := none } := by
  rfl

/-- C4 as amended: a fault raised inside the semantic stream delegate
(render or client fault) marks the context failed with the fault message
and ends the stream without raising, never retracting already-yielded
chunks; the wrapped invocation-failure exception reaches the consumer only
for faults escaping the delegate, such as an unbound client, and there too
only after the context is failed. -/
theorem stream_fault_marks_context_without_raising (cfg : SemanticConfig)
    (ctx : SKContext) :
    (∀ prompt msg chunks, cfg.clientBound = true → cfg.render ctx = .ok prompt →
       cfg.completeStream prompt = { chunks := chunks, fault := some msg } →
       invokeStreamAsync cfg ctx
         = { chunks := chunks, ctx := ctx.fail msg, exc := none })
    ∧ (∀ msg, cfg.clientBound = true → cfg.render ctx = .error msg →
       invokeStreamAsync cfg ctx = { chunks := [], ctx := ctx.fail msg, exc := none })
    ∧ (cfg.clientBound = false →
       invokeStreamAsync cfg ctx
         = { chunks := [],
             ctx := ctx.fail "AI LLM service cannot be None",
             exc := some "Error occurred while invoking stream function" }) := by
  refine ⟨?_, ?_, ?_⟩
  · intro prompt msg chunks hb hr hs
    unfold invokeStreamAsync localStreamFunc
    simp [hb, hr, hs]
  · intro msg hb hr
    unfold invokeStreamAsync localStreamFunc
    simp [hb, hr]
  · intro hb
    unfold invokeStreamAsync localStreamFunc
    simp [hb]

/-- Witness for the amended C4 at a concrete faulting client and a concrete
unbound function. -/
theorem stream_fault_marks_context_without_raising_witness :
    invokeStreamAsync
        { render := fun _ => .ok "p",
          complete := fun _ => .error "unused",
          completeStream := fun _ => { chunks := ["x"], fault := some "bang" },
          clientBound := true }
        { cvars := ContextVariables.empty }
      = { chunks := ["x"],
          ctx := SKContext.fail { cvars := ContextVariables.empty } "bang",
          exc := none }
    ∧ invokeStreamAsync
        { render := fun _ => .ok "p",
          complete := fun _ => .error "unused",
          completeStream := fun _ => { chunks := [], fault := none },
          clientBound := false }
        { cvars := ContextVariables.empty }
      = { chunks := [],
          ctx := SKContext.fail { cvars := ContextVariables.empty }
                   "AI LLM service cannot be None",
          exc := some "Error occurred while invoking stream function" } :=
  ⟨(stream_fault_marks_context_without_raising
      { render := fun _ => .ok "p",
        complete := fun _ => .error "unused",
        completeStream := fun _ => { chunks := ["x"], fault := some "bang" },
        clientBound := true }
      { cvars := ContextVariables.empty }).1 "p" "bang" ["x"] rfl rfl rfl,
   (stream_fault_marks_context_without_raising
      { render := fun _ => .ok "p",
        complete := fun _ => .error "unused",
        completeStream := fun _ => { chunks := [], fault := none },
        clientBound := false }
      { cvars := ContextVariables.empty }).2.2 rfl⟩

/-- C7: for a non-chat semantic function, fully consuming a fault-free
stream of chunks yields no exception, leaves the chunks with the consumer
and writes their in-order concatenation into the input slot — the very
context a non-streaming invocation receiving that same total completion
produces. -/
theorem stream_concat_matches_nonstreaming (cfg : SemanticConfig) (ctx : SKContext)
    (prompt : String) (chunks : List String)
    (hb : cfg.clientBound = true) (hr : cfg.render ctx = .ok prompt)
    (hs : cfg.completeStream prompt = { chunks := chunks, fault := none })
    (hc : cfg.complete prompt = .ok (String.join chunks)) :
    invokeStreamAsync cfg ctx
      = { chunks := chunks,
          ctx := { ctx with cvars := ctx.cvars.update (String.join chunks) },
          exc := none }
    ∧ (invokeStreamAsync cfg ctx).ctx.cvars.input = String.join chunks
    ∧ localFunc cfg ctx = .ok (invokeStreamAsync cfg ctx).ctx := by
  have hmain : invokeStreamAsync cfg ctx
      = { chunks := chunks,
          ctx := { ctx with cvars := ctx.cvars.update (String.join chunks) },
          exc := none } := by
    unfold invokeStreamAsync localStreamFunc
    simp [hb, hr, hs]
  refine ⟨hmain, ?_, ?_⟩
  · rw [hmain]
    rfl
  · rw [hmain]
    unfold localFunc
    simp [hb, hr, hc]

/-- Witness for C7 with the three chunks a, b, c: the input slot ends as
abc on both paths. -/
theorem stream_concat_matches_nonstreaming_witness :
    invokeStreamAsync
        { render := fun _ => .ok "p",
          complete := fun _ => .ok (String.join ["a", "b", "c"]),
          completeStream := fun _ => { chunks := ["a", "b", "c"], fault := none },
          clientBound := true }
        { cvars := ContextVariables.empty }
      = { chunks := ["a", "b", "c"],
          ctx := { cvars := ContextVariables.empty.update (String.join ["a", "b", "c"]) },
          exc := none }
    ∧ (invokeStreamAsync
        { render := fun _ => .ok "p",
          complete := fun _ => .ok (String.join ["a", "b", "c"]),
          completeStream := fun _ => { chunks := ["a", "b", "c"], fault := none },
          clientBound := true }
        { cvars := ContextVariables.empty }).ctx.cvars.input = String.join ["a", "b", "c"]
    ∧ localFunc
        { render := fun _ => .ok "p",
          complete := fun _ => .ok (String.join ["a", "b", "c"]),
          completeStream := fun _ => { chunks := ["a", "b", "c"], fault := none },
          clientBound := true }
        { cvars := ContextVariables.empty }
      = .ok (invokeStreamAsync
          { render := fun _ => .ok "p",
            complete := fun _ => .ok (String.join ["a", "b", "c"]),
            completeStream := fun _ => { chunks := ["a", "b", "c"], fault := none },
            clientBound := true }
          { cvars := ContextVariables.empty }).ctx :=
  stream_concat_matches_nonstreaming
    { render := fun _ => .ok "p",
      complete := fun _ => .ok (String.join ["a", "b", "c"]),
      completeStream := fun _ => { chunks := ["a", "b", "c"], fault := none },
      clientBound := true }
    { cvars := ContextVariables.empty } "p" ["a", "b", "c"] rfl rfl rfl rfl

/-! ## Kernel streaming pipeline (kernel.py run_stream_async, lines 153-216) -/

/-- A function as supplied to run_stream: its ordinary invocation delegate
plus the behavior of invoke_stream_async on a context. -/
structure StreamableFunc where
  body : FuncBody
  streamOut : SKContext → StreamOut

/-- An element of the run_stream argument list. -/
inductive StreamElem where
  | fn (f : StreamableFunc)
  | notAFunction

/-- The streaming stage of run_stream (kernel.py 202-216): iterate the
stream function, re-yielding to the caller; any exception is caught and a
KernelException with the fixed message is raised (the kernel layer does not
touch the context there).  Calling the stage on a non-function raises
inside the try block and is wrapped the same way, with no chunks. -/
def kernelStreamStage (elem : StreamElem) (ctx : SKContext) : StreamOut :=
  match elem with
  | .fn f =>
    let out := f.streamOut ctx
    match out.exc with
    | none => out
    | some _ =>
      { chunks := out.chunks, ctx := out.ctx,
        exc := some "Error occurred while invoking stream function" }
  | .notAFunction =>
    { chunks := [], ctx := ctx,
      exc := some "Error occurred while invoking stream function" }

/-- Context seeding of the single-function branch of run_stream_async
(kernel.py 170-198); textually the same logic as the seeding of run_async,
duplicated in the source. -/
def seedContextStream (inputContext : Option SKContext) (inputVars : Option ContextVariables)
    (inputStr : Option String) : SKContext :=
  match inputContext with
  | some c0 =>
    let c1 := match inputVars with
      | some v => { c0 with cvars := v.mergeOrOverwrite c0.cvars false }
      | none => c0
    match inputStr with
    | some str => { c1 with cvars := (ContextVariables.ofInput str).mergeOrOverwrite c1.cvars false }
    | none => c1
  | none =>
    let vs := match inputStr, inputVars with
      | some str, none => ContextVariables.ofInput str
      | none, some v => v
      | some str, some v => (ContextVariables.ofInput str).mergeOrOverwrite v false
      | none, none => ContextVariables.empty
    { cvars := vs }

/-- The seeding rules of run_stream and run agree (the source duplicates
the code, kernel.py 170-198 versus 226-253). -/
theorem seedContextStream_eq_seedContextRun (inputContext : Option SKContext)
    (inputVars : Option ContextVariables) (inputStr : Option String) :
    seedContextStream inputContext inputVars inputStr
      = seedContextRun inputContext inputVars inputStr := rfl

/-- Outcome of run_stream_async as observed by the stream consumer. -/
inductive StreamRunOutcome where
  | streamed (out : StreamOut)
  | assertionError
  | noFunctions
  | outOfFuel

/-- Kernel.run_stream_async (kernel.py 153-216).  With more than one
function the source executes the line

  context = await self.run_async(pipeline_functions, input_context,
  input_vars, input_str)

but the seeding parameters of run_async are keyword-only behind the
*functions vararg, so all four positional arguments — the prefix tuple and
the three seeding inputs — land in *functions and the seeding keywords stay
None.  None of the four values is an SKFunctionBase instance, so the first
iteration of the run_async loop fails its isinstance assert.  The embedding
reproduces this faithfully: the four stray values are notAFunction
elements and run_async is seeded from None inputs. -/
def runStreamAsync {S : Type} (ev : EventHandlers S) (s0 : S) (fuel : Nat)
    (funcs : List StreamElem) (inputContext : Option SKContext)
    (inputVars : Option ContextVariables) (inputStr : Option String) :
    StreamRunOutcome :=
  match funcs with
  | [] => .noFunctions
  | [streamElem] =>
    .streamed (kernelStreamStage streamElem
      (seedContextStream inputContext inputVars inputStr))
  | f :: g :: rest =>
    match runAsync ev s0 fuel
        [.notAFunction, .notAFunction, .notAFunction, .notAFunction]
        none none none with
    | .ok ctx _ => .streamed (kernelStreamStage ((f :: g :: rest).getLast (by simp)) ctx)
    | .typeErr => .assertionError
    | .outOfFuel => .outOfFuel

/-- C3 fails on the code: run_stream with more than one function never
executes the preceding functions as a sub-pipeline — the positional call
into run_async puts the prefix tuple and the seeding inputs into the
*functions vararg, the isinstance assert fails on the tuple, and an
AssertionError reaches the consumer before anything is invoked. -/
theorem run_stream_multi_function_raises_assertion {S : Type} (ev : EventHandlers S)
    (s0 : S) (fuel : Nat) (f g : StreamElem) (rest : List StreamElem)
    (inputContext : Option SKContext) (inputVars : Option ContextVariables)
    (inputStr : Option String) (hf : 0 < fuel) :
    runStreamAsync ev s0 fuel (f :: g :: rest) inputContext inputVars inputStr
      = .assertionError := by
  obtain ⟨fuel2, rfl⟩ : ∃ k, fuel = k + 1 := ⟨fuel - 1, (Nat.succ_pred_eq_of_pos hf).symm⟩
  unfold runStreamAsync runAsync runPipeline stepLoop
  simp

/-- Witness for the C3 divergence theorem at two concrete functions. -/
theorem run_stream_multi_function_raises_assertion_witness :
    runStreamAsync noEvents () 3
        [.fn { body := fun c => .ok c, streamOut := fun c => { chunks := [], ctx := c, exc := none } },
         .fn { body := fun c => .ok c, streamOut := fun c => { chunks := [], ctx := c, exc := none } }]
        none none none
      = .assertionError :=
  run_stream_multi_function_raises_assertion noEvents () 3
    (.fn { body := fun c => .ok c, streamOut := fun c => { chunks := [], ctx := c, exc := none } })
    (.fn { body := fun c => .ok c, streamOut := fun c => { chunks := [], ctx := c, exc := none } })
    [] none none none (by decide)

/-! ## Chat prompt template
(semantic_functions/chat_prompt_template.py and models/chat/chat_message.py)

The template-engine render of a message body is an external collaborator
and is passed in as a function R from template string and context to
rendered text. -/

/-- ChatMessage (models/chat/chat_message.py): a role, the rendered
fixed_content (serialized under the alias content) and the content
template the message was created from. -/
structure ChatMessage where
  role : String
  fixedContent : Option String
  contentTemplate : Option String
  deriving Repr, DecidableEq

/-- render_message_async (chat_message.py 25-33): the first render fixes
the content from the template; later calls do nothing. -/
def ChatMessage.renderMessage (R : String → SKContext → String) (m : ChatMessage)
    (ctx : SKContext) : ChatMessage :=
  match m.fixedContent with
  | some _ => m
  | none =>
    match m.contentTemplate with
    | some t => { m with fixedContent := some (R t ctx) }
    | none => m

/-- as_dict (chat_message.py 35-39): model_dump with exclude_none and
by_alias, excluding content_template — the role, then the content key only
when fixed_content is set. -/
def ChatMessage.asDict (m : ChatMessage) : List (String × String) :=
  ("role", m.role) ::
    (match m.fixedContent with
     | some c => [("content", c)]
     | none => [])

/-- The message built by add_message (chat_prompt_template.py 63-81): no
fixed content yet; an empty message string is falsy in Python, leaving the
content template None. -/
def newMessage (role msg : String) : ChatMessage :=
  { role := role, fixedContent := none,
    contentTemplate := if msg = "" then none else some msg }

/-- ChatPromptTemplate (chat_prompt_template.py 26-44): the raw template
string, the chat_system_prompt of the config completion settings, and the
ordered message list.  The constructor pre-populates a system message when
the config carries a non-empty chat_system_prompt. -/
structure ChatPromptTemplate where
  template : String
  chatSystemPrompt : Option String
  messages : List ChatMessage
  deriving Repr, DecidableEq

/-- add_message appends to the ordered message list. -/
def ChatPromptTemplate.addMessage (t : ChatPromptTemplate) (role msg : String) :
    ChatPromptTemplate :=
  { t with messages := t.messages ++ [newMessage role msg] }

/-- The constructor of ChatPromptTemplate (chat_prompt_template.py
29-44). -/
def ChatPromptTemplate.init (template : String) (sysPrompt : Option String) :
    ChatPromptTemplate :=
  { template := template, chatSystemPrompt := sysPrompt,
    messages := match sysPrompt with
      | some sp => if sp = "" then [] else [newMessage "system" sp]
      | none => [] }

/-- The append condition of render_messages_async (chat_prompt_template.py
85-88): the raw template is added as a user message when the list is empty
or the last role is assistant or system — and only then. -/
def appendsRawTemplate (msgs : List ChatMessage) : Bool :=
  match msgs.getLast? with
  | none => true
  | some m => m.role == "assistant" || m.role == "system"

/-- render_messages_async (chat_prompt_template.py 83-91): possibly append
the raw template as a user message (a mutation of the template that
persists), render every message in place, and return the message dicts in
order. -/
def ChatPromptTemplate.renderMessages (R : String → SKContext → String)
    (t : ChatPromptTemplate) (ctx : SKContext) :
    ChatPromptTemplate × List (List (String × String)) :=
  let base := if appendsRawTemplate t.messages
    then t.messages ++ [newMessage "user" t.template]
    else t.messages
  let rendered := base.map (fun m => m.renderMessage R ctx)
  ({ t with messages := rendered }, rendered.map ChatMessage.asDict)

/-- dump_messages (chat_prompt_template.py 93-95). -/
def ChatPromptTemplate.dumpMessages (t : ChatPromptTemplate) :
    List (List (String × String)) :=
  t.messages.map ChatMessage.asDict

/-- Python truthiness of an optional string. -/
def optTruthy : Option String → Bool
  | none => false
  | some s => !(s == "")

/-- restore (chat_prompt_template.py 97-126): rebuild a template through
the constructor; when the config carries a chat_system_prompt and the first
dict is a system message, pop it and compare its message key against the
prompt (a missing key is a KeyError); then re-add every remaining dict
through add_message reading the role and message keys (a missing key is a
KeyError).  Raised KeyError and IndexError are error results. -/
def ChatPromptTemplate.restore (msgs : List (List (String × String)))
    (template : String) (sysPrompt : Option String) :
    Except String ChatPromptTemplate :=
  let base := ChatPromptTemplate.init template sysPrompt
  let popped : Except String (List (List (String × String))) :=
    if optTruthy sysPrompt then
      match msgs with
      | [] => .error "IndexError: messages is empty"
      | m0 :: rest =>
        match m0.lookup "role" with
        | none => .error "KeyError: role"
        | some r =>
          if r = "system" then
            match m0.lookup "message" with
            | none => .error "KeyError: message"
            | some _ => .ok rest
          else .ok (m0 :: rest)
    else .ok msgs
  match popped with
  | .error e => .error e
  | .ok rest =>
    rest.foldlM (fun t m =>
      match m.lookup "role" with
      | none => .error "KeyError: role"
      | some r =>
        match m.lookup "message" with
        | none => .error "KeyError: message"
        | some c => .ok (t.addMessage r c)) base

/-- C8 counterexample: a template whose last recorded message has role
tool — not user-authored — does not get the raw template appended:
rendering returns the single tool dict, not the tool dict followed by the
template as a user message, contradicting the claimed if-and-only-if over
all non-user-authored last messages. -/
theorem render_messages_tool_last_no_append :
    (ChatPromptTemplate.renderMessages (fun s _ => s)
        { template := "T", chatSystemPrompt := none,
          messages := [{ role := "tool", fixedContent := some "x",
                         contentTemplate := none }] }
        { cvars := ContextVariables.empty }).2
      = [[("role", "tool"), ("content", "x")]]
    ∧ (ChatPromptTemplate.renderMessages (fun s _ => s)
        { template := "T", chatSystemPrompt := none,
          messages := [{ role := "tool", fixedContent := some "x",
                         contentTemplate := none }] }
        { cvars := ContextVariables.empty }).2
      ≠ [[("role", "tool"), ("content", "x")], [("role", "user"), ("content", "T")]] :=
  ⟨rfl, by decide⟩

/-- C8 as amended: rendering appends the raw template as a final user
message exactly when the message list is empty or the last recorded role is
assistant or system; otherwise the recorded messages are rendered as-is,
in order. -/
theorem render_messages_append_condition (R : String → SKContext → String)
    (t : ChatPromptTemplate) (ctx : SKContext) :
    ((t.messages = [] ∨ ∃ m, t.messages.getLast? = some m
        ∧ (m.role = "assistant" ∨ m.role = "system")) →
      (ChatPromptTemplate.renderMessages R t ctx).2
        = (t.messages ++ [newMessage "user" t.template]).map
            (fun m => (ChatMessage.renderMessage R m ctx).asDict))
    ∧ ((t.messages ≠ [] ∧ ∀ m, t.messages.getLast? = some m →
          m.role ≠ "assistant" ∧ m.role ≠ "system") →
      (ChatPromptTemplate.renderMessages R t ctx).2
        = t.messages.map (fun m => (ChatMessage.renderMessage R m ctx).asDict)) := by
  constructor
  · intro hcond
    have happ : appendsRawTemplate t.messages = true := by
      unfold appendsRawTemplate
      cases hlast : t.messages.getLast? with
      | none => rfl
      | some m =>
        rcases hcond with hnil | ⟨m2, hm2, hrole⟩
        · rw [List.getLast?_eq_none_iff.mpr hnil] at hlast; cases hlast
        · rw [hlast] at hm2
          cases hm2
          simp only [Bool.or_eq_true, beq_iff_eq]
          exact hrole
    unfold ChatPromptTemplate.renderMessages
    simp only [happ, if_true, List.map_map]
    rfl
  · intro ⟨hne, hlastrole⟩
    have happ : appendsRawTemplate t.messages = false := by
      unfold appendsRawTemplate
      cases hlast : t.messages.getLast? with
      | none => exact absurd (List.getLast?_eq_none_iff.mp hlast) hne
      | some m =>
        obtain ⟨h1, h2⟩ := hlastrole m hlast
        simp only [Bool.or_eq_false_iff, beq_eq_false_iff_ne, ne_eq]
        exact ⟨h1, h2⟩
    unfold ChatPromptTemplate.renderMessages
    simp only [happ, if_false, Bool.false_eq_true, List.map_map]
    rfl

/-- Witness for the amended C8: a template-only chat (no messages) gets
the raw template as its sole user message, and a chat ending in a user
message is rendered unchanged. -/
theorem render_messages_append_condition_witness :
    (ChatPromptTemplate.renderMessages (fun s _ => s)
        { template := "T", chatSystemPrompt := none, messages := [] }
        { cvars := ContextVariables.empty }).2
      = ([] ++ [newMessage "user" "T"]).map
          (fun m => (ChatMessage.renderMessage (fun s _ => s) m { cvars := ContextVariables.empty }).asDict)
    ∧ (ChatPromptTemplate.renderMessages (fun s _ => s)
        { template := "T", chatSystemPrompt := none,
          messages := [newMessage "user" "hi"] }
        { cvars := ContextVariables.empty }).2
      = [newMessage "user" "hi"].map
          (fun m => (ChatMessage.renderMessage (fun s _ => s) m { cvars := ContextVariables.empty }).asDict) :=
  ⟨(render_messages_append_condition (fun s _ => s)
      { template := "T", chatSystemPrompt := none, messages := [] }
      { cvars := ContextVariables.empty }).1 (Or.inl rfl),
   (render_messages_append_condition (fun s _ => s)
      { template := "T", chatSystemPrompt := none,
        messages := [newMessage "user" "hi"] }
      { cvars := ContextVariables.empty }).2
     ⟨by decide, fun m hm => by
        cases hm
        exact ⟨by decide, by decide⟩⟩⟩

/-- The C9 scenario template: messages [system S, user U] rendered once,
then the assistant reply R appended (add_assistant_message after a
completed turn). -/
def roundTripTemplate : ChatPromptTemplate :=
  ((((ChatPromptTemplate.init "T" none).addMessage "system" "S").addMessage "user" "U"
      ).renderMessages (fun s _ => s) { cvars := ContextVariables.empty }
    ).1.addMessage "assistant" "R"

/-- C9 fails on the code in two independent ways, evaluated here at the
scenario of the claim.  First, the appended assistant reply is serialized
without its content: fixed_content is still None (the reply is a template
that was never rendered), and model_dump with exclude_none drops the
content key, so dump_messages does not produce role assistant content R.
Second, restore reads the key message from each serialized dict while
dump_messages writes the key content, so restoring the dumped list raises
KeyError and reproduces nothing. -/
theorem dump_restore_round_trip_fails :
    roundTripTemplate.dumpMessages
      = [[("role", "system"), ("content", "S")],
         [("role", "user"), ("content", "U")],
         [("role", "assistant")]]
    ∧ ChatPromptTemplate.restore roundTripTemplate.dumpMessages "T" none
      = .error "KeyError: message" :=
  ⟨by decide, by rfl⟩

end SKModel
